import Mathlib

/-!
Verification of the lead-scoring and candidate-matching core of the
`Rocket_app` ai-service (`core/lead_scorer.py`, `core/recommender.py`).

Modelling conventions:
* Python numbers are embedded as `ℤ` (integer scores, durations) and `ℚ`
  (float scores); `round(x, 2)` is embedded as round-half-to-even at two
  decimals over `ℚ`.
* Python strings are embedded as `String`; all keyword/substring scanning
  is performed on `List Char` (`String.data`) so that everything is
  executable in the kernel.  `str.lower()` is embedded as an ASCII
  lowercase map (the keyword tables of the source are already lowercase).
* Python dicts that the scorers read from are embedded as association
  lists; dicts they return are embedded as structures.  Fields of returned
  dicts that no claim mentions (free-text recommendation reasons,
  wall-clock timestamps) are omitted.
* A `try:`/`except:` block around a per-item loop body is embedded by an
  `Option`-valued item processor (`none` = the body raised and the item
  was skipped).
-/

namespace Rocket

/-! ### Python string primitives -/

/-- ASCII lowercasing of one character (embeds `str.lower()` for the
ASCII range; the non-ASCII Vietnamese keywords in the source tables are
already lowercase). -/
def toLowerChar (c : Char) : Char :=
  if 'A' ≤ c && c ≤ 'Z' then Char.ofNat (c.toNat + 32) else c

/-- `s.lower()` as a character list. -/
def lowerStr (s : String) : List Char := s.data.map toLowerChar

/-- Substring containment on character lists. -/
def listContains (needle haystack : List Char) : Bool :=
  (List.range (haystack.length + 1)).any (fun i => needle.isPrefixOf (haystack.drop i))

/-- Python's `needle in haystack` for strings. -/
def pyIn (needle : String) (haystack : List Char) : Bool :=
  listContains needle.data haystack

/-! ### Keyword tables of `_analyze_content_nlp` (lead_scorer.py, lines 264-284) -/

/-- High-value enterprise keywords (+30 points, once per message). -/
def enterpriseKeywords : List String :=
  ["báo giá doanh nghiệp", "hợp tác", "số lượng lớn",
   "enterprise", "corporate", "bulk training", "team training",
   "partnership", "collaboration", "enterprise solution"]

/-- Positive intent keywords (+5 points each). -/
def positiveKeywords : List String :=
  ["mua", "đăng ký", "quan tâm", "muốn học", "tham gia",
   "chi phí", "giá cả", "pricing", "cost", "interested",
   "enroll", "register", "sign up"]

/-- Negative sentiment keywords (trigger human intervention). -/
def negativeKeywords : List String :=
  ["không hài lòng", "thất vọng", "tệ", "kém", "không tốt",
   "bực bội", "tức giận", "khó chịu", "phản đối",
   "disappointed", "frustrated", "angry", "upset", "terrible",
   "awful", "horrible", "worst", "hate"]

/-! ### The three negative regex patterns (lead_scorer.py, lines 306-310)

`re.search` of the patterns `không\s+\w*\s*(tốt|hay|ok)`, `quá\s+(đắt|cao)`
and `(rất|quá)\s+(tệ|kém)` is embedded by executable continuation-passing
matchers over `List Char`. -/

/-- Python `\s` (ASCII whitespace class). -/
def isWsChar (c : Char) : Bool :=
  c = ' ' || c = '\t' || c = '\n' || c = '\r' || c = '\x0b' || c = '\x0c'

/-- Python `\w` (ASCII approximation of the word-character class). -/
def isWordChar (c : Char) : Bool := c.isAlphanum || c = '_'

/-- Match a literal, then continue. -/
def matchLit (lit : List Char) (k : List Char → Bool) (l : List Char) : Bool :=
  if lit.isPrefixOf l then k (l.drop lit.length) else false

/-- Match zero or more characters satisfying `p`, then continue
(backtracking: some split must let the continuation succeed). -/
def matchStar (p : Char → Bool) (k : List Char → Bool) : List Char → Bool
  | [] => k []
  | c :: rest => k (c :: rest) || (p c && matchStar p k rest)

/-- Match one or more characters satisfying `p`, then continue. -/
def matchSome (p : Char → Bool) (k : List Char → Bool) : List Char → Bool
  | [] => false
  | c :: rest => p c && matchStar p k rest

/-- Match one of the literal alternatives, then continue. -/
def matchAlt (alts : List String) (k : List Char → Bool) (l : List Char) : Bool :=
  alts.any (fun a => matchLit a.data k l)

/-- `re.search`: the matcher may start at any position. -/
def searchAnywhere (m : List Char → Bool) (l : List Char) : Bool :=
  (List.range (l.length + 1)).any (fun i => m (l.drop i))

/-- Trivial continuation: the rest of the string is unconstrained. -/
def matchEnd : List Char → Bool := fun _ => true

/-- `không\s+\w*\s*(tốt|hay|ok)` -/
def negPattern1 : List Char → Bool :=
  matchLit "không".data
    (matchSome isWsChar (matchStar isWordChar (matchStar isWsChar
      (matchAlt ["tốt", "hay", "ok"] matchEnd))))

/-- `quá\s+(đắt|cao)` -/
def negPattern2 : List Char → Bool :=
  matchLit "quá".data (matchSome isWsChar (matchAlt ["đắt", "cao"] matchEnd))

/-- `(rất|quá)\s+(tệ|kém)` -/
def negPattern3 : List Char → Bool :=
  matchAlt ["rất", "quá"] (matchSome isWsChar (matchAlt ["tệ", "kém"] matchEnd))

/-- The loop over `negative_patterns` with `break` on first match. -/
def negPatternsMatch (cl : List Char) : Bool :=
  [negPattern1, negPattern2, negPattern3].any (fun p => searchAnywhere p cl)

/-! ### `_analyze_content_nlp` (lead_scorer.py, lines 256-324) -/

/-- The enterprise-keyword loop: `score += 30` then `break` on the first
keyword contained in the message (lines 287-290). -/
def enterpriseLoopScore : List String → List Char → ℤ
  | [], _ => 0
  | k :: rest, cl => if pyIn k cl then 30 else enterpriseLoopScore rest cl

/-- The positive-keyword loop: `score += 5` for every matched keyword,
no break (lines 293-295). -/
def positiveLoopScore (ks : List String) (cl : List Char) : ℤ :=
  ks.foldl (fun s k => if pyIn k cl then s + 5 else s) 0

/-- `_analyze_content_nlp(content) -> (score, negative_sentiment)`.
The negative-keyword loop sets the flag and breaks on the first match,
which is `List.any`; patterns are only consulted when no keyword matched.
The internal `try/except` is unreachable for this pure computation. -/
def analyzeContentNlp (content : String) : ℤ × Bool :=
  let content_lower := lowerStr content
  let score : ℤ := enterpriseLoopScore enterpriseKeywords content_lower
  let score := score + positiveLoopScore positiveKeywords content_lower
  let negative_sentiment := negativeKeywords.any (fun k => pyIn k content_lower)
  let negative_sentiment :=
    if negative_sentiment then negative_sentiment else negPatternsMatch content_lower
  (max 0 score, negative_sentiment)

/-- Negative-sentiment detection as the spec describes it: some negative
keyword or some negative pattern occurs in the lowercased content. -/
def matchesNegativeSentiment (content : String) : Bool :=
  negativeKeywords.any (fun k => pyIn k (lowerStr content)) ||
    negPatternsMatch (lowerStr content)

/-! ### `score_lead` (lead_scorer.py, lines 191-254) -/

/-- One interaction event: `interaction.get('type', '')`,
`.get('content', '')`, `.get('duration', 0)`, `.get('page_url', '')`. -/
structure Interaction where
  type : String
  content : String
  duration : ℤ
  page_url : String

/-- Rule 1 condition: pricing page visited (line 206). -/
def rule1Cond (i : Interaction) : Bool :=
  pyIn "pricing" (lowerStr i.page_url) || pyIn "gia" (lowerStr i.page_url)

/-- Rule 2 condition: Python content viewed for more than 180s (line 211). -/
def rule2Cond (i : Interaction) : Bool :=
  (pyIn "python" (lowerStr i.page_url) || pyIn "python" (lowerStr i.content)) &&
    decide (180 < i.duration)

/-- Rule 3 condition: contact form submitted (line 216). -/
def rule3Cond (i : Interaction) : Bool :=
  i.type == "form_submission" || pyIn "contact" (lowerStr i.type)

/-- Rule 4 condition: chat/message with truthy (non-empty) content (line 221). -/
def rule4Cond (i : Interaction) : Bool :=
  (i.type == "chat" || i.type == "message") && i.content != ""

/-- The body of the `for interaction in interaction_data` loop: the score
contribution of one event, whether it set the sentiment flag, and the
trace lines it appended, in source order. -/
def processInteraction (i : Interaction) : ℤ × Bool × List String :=
  let s1 : ℤ := if rule1Cond i then 10 else 0
  let d1 : List String := if rule1Cond i then ["Visited pricing page (+10)"] else []
  let s2 : ℤ := if rule2Cond i then 15 else 0
  let d2 : List String := if rule2Cond i then ["Viewed Python course >3min (+15)"] else []
  let s3 : ℤ := if rule3Cond i then 20 else 0
  let d3 : List String := if rule3Cond i then ["Submitted contact form (+20)"] else []
  let nlp := if rule4Cond i then analyzeContentNlp i.content else (0, false)
  let nlp_score := nlp.1
  let sentiment_flag := nlp.2
  let d4 : List String :=
    (if sentiment_flag then ["Negative sentiment detected - needs human intervention"] else []) ++
      (if 0 < nlp_score then [s!"NLP analysis (+{nlp_score})"] else [])
  (s1 + s2 + s3 + nlp_score, sentiment_flag, d1 ++ d2 ++ d3 ++ d4)

/-- `_determine_lead_quality` (lead_scorer.py, lines 408-419). -/
def determineLeadQuality (score : ℚ) : String :=
  if score ≥ 80 then "hot"
  else if score ≥ 60 then "warm"
  else if score ≥ 40 then "medium"
  else if score ≥ 20 then "cold"
  else "very_cold"

/-- The dict returned by `score_lead` (success and error shapes).
`scored_at` (wall clock) is omitted; `total_interactions` and `error`
are `Option` because each appears in only one of the two shapes. -/
structure ScoreLeadResult where
  lead_score : ℤ
  quality : String
  needs_human_intervention : Bool
  interaction_details : List String
  total_interactions : Option ℕ
  error : Option String

/-- The accumulating loop of `score_lead`: total score, escalation flag
and trace are threaded through the events exactly as the mutable
`total_score` / `needs_human_intervention` / `interaction_details` are. -/
def scoreLeadLoop : List Interaction → ℤ → Bool → List String → ℤ × Bool × List String
  | [], total, flag, details => (total, flag, details)
  | i :: rest, total, flag, details =>
    let r := processInteraction i
    scoreLeadLoop rest (total + r.1) (flag || r.2.1) (details ++ r.2.2)

/-- `score_lead` on the normal (non-raising) path (lines 191-244). -/
def scoreLead (interaction_data : List Interaction) : ScoreLeadResult :=
  let r := scoreLeadLoop interaction_data 0 false []
  { lead_score := r.1
    quality := determineLeadQuality (r.1 : ℚ)
    needs_human_intervention := r.2.1
    interaction_details := r.2.2
    total_interactions := some interaction_data.length
    error := none }

/-- The structured fallback `score_lead` returns from its `except` branch
(lines 246-254). -/
def scoreLeadErrorResult (e : String) : ScoreLeadResult :=
  { lead_score := 0
    quality := "unqualified"
    needs_human_intervention := true
    interaction_details := []
    total_interactions := none
    error := some e }

/-! ### Rounding and the score blend of `calculate_lead_score` -/

/-- Floor of a rational as an integer (executable). -/
def qFloor (q : ℚ) : ℤ := Int.fdiv q.num q.den

/-- Round half to even to the nearest integer (Python 3 `round`). -/
def roundHalfEven (q : ℚ) : ℤ :=
  let f := qFloor q
  if q - f < 1/2 then f
  else if (1 : ℚ)/2 < q - f then f + 1
  else if f % 2 = 0 then f else f + 1

/-- Python `round(q, 2)`. -/
def pyRound2 (q : ℚ) : ℚ := ((roundHalfEven (q * 100) : ℤ) : ℚ) / 100

/-- The blend step of `calculate_lead_score` (lead_scorer.py, lines
340-348): `final = (ml*0.7 + rule*0.3)*100`, clamped to `[0, 100]`,
reported as `round(final, 2)`. -/
def blendScore (ml_score rule_based_score : ℚ) : ℚ :=
  let final_score := (ml_score * 0.7 + rule_based_score * 0.3) * 100
  let final_score := max 0 (min 100 final_score)
  pyRound2 final_score

/-- The blend exactly as §4.4 of the spec words it:
`clamp(ml_score*0.7 + rule_score*0.3, 0, 1) * 100`. -/
def specBlendFormula (ml_score rule_score : ℚ) : ℚ :=
  min 1 (max 0 (ml_score * 0.7 + rule_score * 0.3)) * 100

/-! ### `calculate_skill_match_score` (recommender.py, lines 237-273) -/

/-- `skill.lower().replace(' ', '_')` — the key normalization used both
when the competency vector is built and when a required skill is looked
up in it. -/
def normSkillStr (skill : String) : String :=
  String.mk ((lowerStr skill).map (fun c => if c = ' ' then '_' else c))

/-- `_get_proficiency_level` (recommender.py, lines 275-286). -/
def getProficiencyLevel (score : ℚ) : String :=
  if score ≥ 90 then "expert"
  else if score ≥ 80 then "advanced"
  else if score ≥ 70 then "intermediate"
  else if score ≥ 60 then "beginner"
  else "novice"

/-- One entry of `matched_skills`. -/
structure SkillMatchEntry where
  skill : String
  score : ℚ
  proficiency : String

/-- The dict returned by `calculate_skill_match_score`.  The redundant
reporting fields `match_rate` and `avg_skill_score` (absent from the
empty-requirements branch) are omitted. -/
structure SkillMatchResult where
  score : ℚ
  matched_skills : List SkillMatchEntry
  missing_skills : List String

/-- The `for skill in required_skills` loop: builds `matched_skills`,
`missing_skills` and `skill_scores` in input order (lines 246-257). -/
def skillLoop (vec : List (String × ℚ)) :
    List String → List SkillMatchEntry × List String × List ℚ
  | [] => ([], [], [])
  | skill :: rest =>
    let r := skillLoop vec rest
    match List.lookup (normSkillStr skill) vec with
    | some score => (⟨skill, score, getProficiencyLevel score⟩ :: r.1, r.2.1, score :: r.2.2)
    | none => (r.1, skill :: r.2.1, r.2.2)

/-- `calculate_skill_match_score(candidate_competencies, required_skills)`.
The competency vector is the dict `{normalized_name: score}`, embedded as
an association list. -/
def calculateSkillMatchScore (candidate_competencies : List (String × ℚ))
    (required_skills : List String) : SkillMatchResult :=
  if required_skills = [] then { score := 0, matched_skills := [], missing_skills := [] }
  else
    let r := skillLoop candidate_competencies required_skills
    let matched_skills := r.1
    let missing_skills := r.2.1
    let skill_scores := r.2.2
    let match_rate : ℚ := matched_skills.length / required_skills.length
    let avg_skill_score : ℚ := if skill_scores = [] then 0 else skill_scores.sum / skill_scores.length
    let overall_score := (match_rate * 0.6 + avg_skill_score / 100 * 0.4) * 100
    { score := pyRound2 overall_score
      matched_skills := matched_skills
      missing_skills := missing_skills }

/-- The skill-match formula as §4.5 of the spec words it:
`(match_rate*0.6 + avg_matched_score/100*0.4) * 100`, where `match_rate`
is the fraction of required skills present in the vector and
`avg_matched_score` the mean competency score of the matched skills
(0 when none matched). -/
def specSkillMatchFormula (vec : List (String × ℚ)) (required : List String) : ℚ :=
  let matchedScores := required.filterMap (fun s => List.lookup (normSkillStr s) vec)
  let match_rate : ℚ := matchedScores.length / required.length
  let avg : ℚ := if matchedScores = [] then 0 else matchedScores.sum / matchedScores.length
  (match_rate * 0.6 + avg / 100 * 0.4) * 100

/-! ### `calculate_experience_match` (recommender.py, lines 288-334) -/

/-- The candidate feature map built by `extract_candidate_features`,
restricted to the fields the sub-scorers read.  A raw candidate record
whose feature extraction raises is represented upstream by `none`. -/
structure CandidateFeatures where
  candidate_id : ℤ
  avg_competency_score : ℚ
  days_since_enrollment : ℤ
  competency_vector : List (String × ℚ)
  avg_task_score : ℚ
  course_completion_rate : ℚ
  task_completion_rate : ℚ
  consistency_score : ℚ
  improvement_trend : ℚ
  learning_velocity : ℚ
  engagement_score : ℚ
  recent_activity : ℚ

/-- The experience-level ordering (recommender.py, lines 304-310). -/
def expMapping : List (String × ℤ) :=
  [("entry_level", 1), ("junior", 2), ("mid_level", 3), ("senior", 4), ("executive", 5)]

/-- Candidate experience bucketing from competency score and tenure
(lines 294-301). -/
def estimateCandidateLevel (f : CandidateFeatures) : String :=
  if f.avg_competency_score ≥ 85 ∧ f.days_since_enrollment ≥ 365 then "senior"
  else if f.avg_competency_score ≥ 70 ∧ f.days_since_enrollment ≥ 180 then "mid_level"
  else if f.avg_competency_score ≥ 60 then "junior"
  else "entry_level"

/-- The dict returned by `calculate_experience_match`. -/
structure ExperienceMatchResult where
  score : ℤ
  candidate_level : String
  required_level : String
  match_quality : String

/-- `calculate_experience_match(candidate_features, required_experience)`
(lines 288-334): `exp_mapping.get(candidate_level, 2)`,
`exp_mapping.get(required_experience, 3)`, then the if-chain on the two
bucket numbers. -/
def calculateExperienceMatch (candidate_features : CandidateFeatures)
    (required_experience : String) : ExperienceMatchResult :=
  let candidate_level := estimateCandidateLevel candidate_features
  let candidate_score := (List.lookup candidate_level expMapping).getD 2
  let required_score := (List.lookup required_experience expMapping).getD 3
  if candidate_score ≥ required_score then
    ⟨100, candidate_level, required_experience, "excellent"⟩
  else if candidate_score = required_score - 1 then
    ⟨75, candidate_level, required_experience, "good"⟩
  else if candidate_score = required_score - 2 then
    ⟨50, candidate_level, required_experience, "fair"⟩
  else
    ⟨25, candidate_level, required_experience, "poor"⟩

/-- The claim's reading of the experience step function: a function of the
absolute bucket distance, `0→100, 1→75, 2→50, ≥3→25`. -/
def claimedAbsDistanceStep (d : ℕ) : ℤ :=
  if d = 0 then 100 else if d = 1 then 75 else if d = 2 then 50 else 25

/-- What the code actually computes: a step function of the deficit
`required_bucket - candidate_bucket` (any surplus scores 100). -/
def deficitStep (d : ℤ) : ℤ :=
  if d ≤ 0 then 100 else if d = 1 then 75 else if d = 2 then 50 else 25

/-! ### The remaining sub-scorers (recommender.py, lines 336-368) -/

/-- `calculate_performance_score` (lines 336-345). -/
def calculatePerformanceScore (f : CandidateFeatures) : ℚ :=
  (f.avg_task_score / 100 * 0.4 + f.course_completion_rate * 0.3 +
    f.task_completion_rate * 0.2 + f.consistency_score * 0.1) * 100

/-- `calculate_learning_potential` (lines 347-356). -/
def calculateLearningPotential (f : CandidateFeatures) : ℚ :=
  (f.improvement_trend * 0.4 + f.learning_velocity / 10 * 0.3 +
    f.engagement_score * 0.2 + f.recent_activity * 0.1) * 100

/-- `calculate_cultural_fit` (lines 358-368); the `company_culture`
argument is unused in the source. -/
def calculateCulturalFit (f : CandidateFeatures) : ℚ :=
  min (70 + f.engagement_score * 10 + f.consistency_score * 10) 100

/-! ### `recommend_candidates` (recommender.py, lines 370-450) -/

/-- The parsed job requirements `recommend_candidates` works from: the
flattened required-skill list and
`parsed_jd.get('experience_level', {}).get('level', 'mid_level')`
(lines 382-388).  The upstream JD text parser is outside the core. -/
structure JobRequirements where
  required_skills : List String
  required_experience : String

/-- One entry of the recommendation list (lines 421-436); the free-text
`candidate_name`, `recommendation_reasons`, `areas_for_development` and
`strengths` fields are omitted.  Note there is no error field. -/
structure Recommendation where
  candidate_id : ℤ
  overall_score : ℚ
  skill_match : SkillMatchResult
  experience_match : ExperienceMatchResult
  performance_score : ℚ
  learning_potential : ℚ
  cultural_fit : ℚ

/-- The recommendation weights (recommender.py, lines 34-40). -/
def recommendationWeights : ℚ × ℚ × ℚ × ℚ × ℚ := (0.35, 0.25, 0.20, 0.15, 0.05)

/-- The body of the per-candidate loop, wrapped in `try:`/`except:
continue` (lines 392-442): a candidate whose feature extraction raised is
`none` and is skipped; otherwise all sub-scores are computed and blended. -/
def processCandidate (jd : JobRequirements) :
    Option CandidateFeatures → Option Recommendation
  | none => none
  | some candidate_features =>
    let skill_match := calculateSkillMatchScore candidate_features.competency_vector
      jd.required_skills
    let experience_match := calculateExperienceMatch candidate_features
      jd.required_experience
    let performance_score := calculatePerformanceScore candidate_features
    let learning_potential := calculateLearningPotential candidate_features
    let cultural_fit := calculateCulturalFit candidate_features
    let overall_score :=
      skill_match.score * recommendationWeights.1 +
      (experience_match.score : ℚ) * recommendationWeights.2.1 +
      performance_score * recommendationWeights.2.2.1 +
      learning_potential * recommendationWeights.2.2.2.1 +
      cultural_fit * recommendationWeights.2.2.2.2
    some { candidate_id := candidate_features.candidate_id
           overall_score := pyRound2 overall_score
           skill_match := skill_match
           experience_match := experience_match
           performance_score := pyRound2 performance_score
           learning_potential := pyRound2 learning_potential
           cultural_fit := pyRound2 cultural_fit }

/-- Stable descending insertion by `overall_score`: an element is placed
before the first element whose score is `≤` its own, so earlier input
stays before equal-scored later input — the behaviour of
`list.sort(key=..., reverse=True)` (line 445). -/
def insertRecDesc (r : Recommendation) : List Recommendation → List Recommendation
  | [] => [r]
  | x :: xs => if x.overall_score ≤ r.overall_score then r :: x :: xs else x :: insertRecDesc r xs

/-- Stable sort, descending by `overall_score`. -/
def sortRecsDesc : List Recommendation → List Recommendation
  | [] => []
  | x :: xs => insertRecDesc x (sortRecsDesc xs)

/-- Python `l[:k]` including the negative-index semantics: a negative `k`
keeps all but the last `|k|` elements. -/
def pySliceTo {α : Type} (l : List α) (k : ℤ) : List α :=
  if 0 ≤ k then l.take k.toNat else l.take ((l.length : ℤ) + k).toNat

/-- The ranked recommendation list before truncation: survivors of the
per-candidate loop, sorted stably by descending overall score. -/
def rankedRecommendations (jd : JobRequirements)
    (candidates : List (Option CandidateFeatures)) : List Recommendation :=
  sortRecsDesc (candidates.filterMap (processCandidate jd))

/-- `recommend_candidates(job_description, candidates, top_k)`
(lines 370-450): rank, then return `recommendations[:top_k]`. -/
def recommendCandidates (jd : JobRequirements)
    (candidates : List (Option CandidateFeatures)) (top_k : ℤ) : List Recommendation :=
  pySliceTo (rankedRecommendations jd candidates) top_k

/-! ### Helper lemmas: the `score_lead` accumulator loop -/

/-- Per-event score of `score_lead`. -/
def eventScore (i : Interaction) : ℤ := (processInteraction i).1

/-- Per-event trace lines of `score_lead`. -/
def eventTrace (i : Interaction) : List String := (processInteraction i).2.2

theorem scoreLeadLoop_spec (l : List Interaction) :
    ∀ (t : ℤ) (f : Bool) (d : List String),
      scoreLeadLoop l t f d =
        (t + (l.map eventScore).sum,
          f || l.any (fun i => (processInteraction i).2.1),
          d ++ l.flatMap eventTrace) := by
  induction l with
  | nil => intro t f d; simp [scoreLeadLoop]
  | cons i rest ih =>
    intro t f d
    simp [scoreLeadLoop, ih, eventScore, eventTrace, Bool.or_assoc, add_assoc]

theorem analyzeContentNlp_fst_nonneg (content : String) :
    0 ≤ (analyzeContentNlp content).1 := by
  simp only [analyzeContentNlp]
  exact le_max_left _ _

theorem processInteraction_nonneg (i : Interaction) : 0 ≤ (processInteraction i).1 := by
  simp only [processInteraction]
  have h1 : (0 : ℤ) ≤ if rule1Cond i then 10 else 0 := by split <;> norm_num
  have h2 : (0 : ℤ) ≤ if rule2Cond i then 15 else 0 := by split <;> norm_num
  have h3 : (0 : ℤ) ≤ if rule3Cond i then 20 else 0 := by split <;> norm_num
  have h4 : (0 : ℤ) ≤ (if rule4Cond i then analyzeContentNlp i.content else (0, false)).1 := by
    split
    · exact analyzeContentNlp_fst_nonneg _
    · exact le_refl 0
  exact add_nonneg (add_nonneg (add_nonneg h1 h2) h3) h4

theorem enterpriseLoopScore_eq_any (ks : List String) (cl : List Char) :
    enterpriseLoopScore ks cl = if ks.any (fun k => pyIn k cl) then 30 else 0 := by
  induction ks with
  | nil => rfl
  | cons k rest ih =>
    simp only [enterpriseLoopScore, List.any_cons, ih]
    by_cases h : pyIn k cl <;> simp [h]

theorem analyzeContentNlp_snd (content : String) :
    (analyzeContentNlp content).2 = matchesNegativeSentiment content := by
  simp only [analyzeContentNlp, matchesNegativeSentiment]
  by_cases h : negativeKeywords.any (fun k => pyIn k (lowerStr content)) <;> simp [h]

theorem matchesNegativeSentiment_empty : matchesNegativeSentiment "" = false := by decide

theorem processInteraction_flag (i : Interaction) :
    (processInteraction i).2.1 =
      ((i.type == "chat" || i.type == "message") && matchesNegativeSentiment i.content) := by
  have hproj : (processInteraction i).2.1 =
      if rule4Cond i then (analyzeContentNlp i.content).2 else false := by
    simp only [processInteraction]
    split <;> rfl
  rw [hproj]
  by_cases h : rule4Cond i
  · rw [if_pos h, analyzeContentNlp_snd]
    unfold rule4Cond at h
    rw [Bool.and_eq_true] at h
    rw [h.1, Bool.true_and]
  · rw [if_neg h]
    unfold rule4Cond at h
    rw [Bool.and_eq_true, not_and_or] at h
    rcases h with h | h
    · rw [Bool.not_eq_true] at h
      rw [h, Bool.false_and]
    · rw [Bool.not_eq_true, bne_eq_false_iff_eq] at h
      rw [h, matchesNegativeSentiment_empty, Bool.and_false]

/-! ### Claim theorems: the interaction-event scorer -/

/-- Claim C1: the quality tier returned by the category mapping is
exactly `hot` iff `s ≥ 80`, `warm` iff `60 ≤ s < 80`, `medium` iff
`40 ≤ s < 60`, `cold` iff `20 ≤ s < 40` and `very_cold` iff `s < 20`,
each boundary inclusive on the lower bound of its tier. -/
theorem quality_tier_boundaries (s : ℚ) :
    (determineLeadQuality s = "hot" ↔ 80 ≤ s) ∧
    (determineLeadQuality s = "warm" ↔ 60 ≤ s ∧ s < 80) ∧
    (determineLeadQuality s = "medium" ↔ 40 ≤ s ∧ s < 60) ∧
    (determineLeadQuality s = "cold" ↔ 20 ≤ s ∧ s < 40) ∧
    (determineLeadQuality s = "very_cold" ↔ s < 20) := by
  unfold determineLeadQuality
  split_ifs with h1 h2 h3 h4 <;>
    refine ⟨?_, ?_, ?_, ?_, ?_⟩ <;>
    constructor <;>
    intro h <;>
    first
      | rfl
      | linarith
      | (constructor <;> linarith)
      | (exact absurd h (by decide))

/-- Claim C4: the total score of `score_lead` is non-negative and equals
the sum of the per-event rule contributions (pricing +10, long Python
view +15, form +20, per-message NLP score), and the trace is exactly the
concatenation of the per-event contribution lines in processing order. -/
theorem score_lead_sum_nonneg_trace :
    (∀ data : List Interaction,
        (scoreLead data).lead_score = (data.map eventScore).sum ∧
        0 ≤ (scoreLead data).lead_score ∧
        (scoreLead data).interaction_details = data.flatMap eventTrace) ∧
    (∀ i : Interaction,
        eventScore i =
          (if rule1Cond i then 10 else 0) + (if rule2Cond i then 15 else 0) +
            (if rule3Cond i then 20 else 0) +
            (if rule4Cond i then (analyzeContentNlp i.content).1 else 0)) := by
  constructor
  · intro data
    refine ⟨?_, ?_, ?_⟩
    · simp [scoreLead, scoreLeadLoop_spec]
    · have : (scoreLead data).lead_score = (data.map eventScore).sum := by
        simp [scoreLead, scoreLeadLoop_spec]
      rw [this]
      apply List.sum_nonneg
      intro x hx
      obtain ⟨i, _, rfl⟩ := List.mem_map.mp hx
      exact processInteraction_nonneg i
    · simp [scoreLead, scoreLeadLoop_spec]
  · intro i
    simp only [eventScore, processInteraction]
    congr 1
    split <;> rfl

/-- Claim C5: the enterprise-keyword rule contributes exactly +30 to a
message's score when at least one enterprise keyword occurs in it, and
still exactly +30 when several co-occur (the loop breaks after the first
match); the message score is the clamped sum of this contribution and the
positive-keyword contribution. -/
theorem enterprise_keyword_scored_once :
    (∀ content : String,
        enterpriseLoopScore enterpriseKeywords (lowerStr content) =
          if enterpriseKeywords.any (fun k => pyIn k (lowerStr content)) then 30 else 0) ∧
    (∀ content : String,
        (analyzeContentNlp content).1 =
          max 0 (enterpriseLoopScore enterpriseKeywords (lowerStr content) +
            positiveLoopScore positiveKeywords (lowerStr content))) := by
  constructor
  · intro content
    exact enterpriseLoopScore_eq_any _ _
  · intro content
    simp [analyzeContentNlp]

/-- Claim C6: the escalation flag of `score_lead` is true iff some
chat/message event's content matches a negative-sentiment keyword or
pattern; the flag and the score are accumulated monotonically over the
event sequence (the flag is an `or` over the batch, the score a sum of
per-event contributions none of which is negative). -/
theorem escalation_iff_negative_monotone :
    (∀ data : List Interaction,
        (scoreLead data).needs_human_intervention =
          data.any (fun i => (i.type == "chat" || i.type == "message") &&
            matchesNegativeSentiment i.content)) ∧
    (∀ l₁ l₂ : List Interaction,
        (scoreLead (l₁ ++ l₂)).needs_human_intervention =
          ((scoreLead l₁).needs_human_intervention ||
            (scoreLead l₂).needs_human_intervention)) ∧
    (∀ l₁ l₂ : List Interaction,
        (scoreLead (l₁ ++ l₂)).lead_score =
          (scoreLead l₁).lead_score + (scoreLead l₂).lead_score) ∧
    (∀ i : Interaction, 0 ≤ eventScore i) := by
  refine ⟨?_, ?_, ?_, fun i => processInteraction_nonneg i⟩
  · intro data
    simp [scoreLead, scoreLeadLoop_spec, processInteraction_flag]
  · intro l₁ l₂
    simp [scoreLead, scoreLeadLoop_spec]
  · intro l₁ l₂
    simp [scoreLead, scoreLeadLoop_spec]

/-- Claim C9: the `except` branch of `score_lead` returns a structured
result with score 0, escalation set, an empty trace, the error string,
and the quality label `unqualified` — a label the normal-path tier
mapping can never produce. -/
theorem error_fallback_shape :
    (∀ e : String,
        (scoreLeadErrorResult e).lead_score = 0 ∧
        (scoreLeadErrorResult e).quality = "unqualified" ∧
        (scoreLeadErrorResult e).needs_human_intervention = true ∧
        (scoreLeadErrorResult e).interaction_details = [] ∧
        (scoreLeadErrorResult e).error = some e) ∧
    (∀ s : ℚ, determineLeadQuality s ∈
      (["very_cold", "cold", "medium", "warm", "hot"] : List String)) ∧
    (∀ s : ℚ, determineLeadQuality s ≠ "unqualified") ∧
    (∀ data : List Interaction, (scoreLead data).quality ≠ "unqualified") := by
  have hmem : ∀ s : ℚ, determineLeadQuality s ∈
      (["very_cold", "cold", "medium", "warm", "hot"] : List String) := by
    intro s
    unfold determineLeadQuality
    split_ifs <;> simp
  have hne : ∀ s : ℚ, determineLeadQuality s ≠ "unqualified" := by
    intro s
    unfold determineLeadQuality
    split_ifs <;> decide
  refine ⟨fun e => ⟨rfl, rfl, rfl, rfl, rfl⟩, hmem, hne, fun data => ?_⟩
  show determineLeadQuality _ ≠ _
  exact hne _

/-! ### Helper lemmas: the recommender -/

theorem length_insertRecDesc (r : Recommendation) (l : List Recommendation) :
    (insertRecDesc r l).length = l.length + 1 := by
  induction l with
  | nil => rfl
  | cons x xs ih =>
    simp only [insertRecDesc]
    split <;> simp [ih]

theorem length_sortRecsDesc (l : List Recommendation) :
    (sortRecsDesc l).length = l.length := by
  induction l with
  | nil => rfl
  | cons x xs ih => simp [sortRecsDesc, length_insertRecDesc, ih]

theorem skillLoop_spec (vec : List (String × ℚ)) (req : List String) :
    (skillLoop vec req).2.2 = req.filterMap (fun s => List.lookup (normSkillStr s) vec) ∧
    (skillLoop vec req).1.length = (skillLoop vec req).2.2.length := by
  induction req with
  | nil => exact ⟨rfl, rfl⟩
  | cons s rest ih =>
    simp only [skillLoop, List.filterMap_cons]
    cases h : List.lookup (normSkillStr s) vec with
    | none => simpa using ih
    | some q => simp [ih.1, ih.2]

/-! ### Example inputs used by the concrete theorems -/

/-- A candidate feature map with all-zero metrics. -/
def cFeatBase : CandidateFeatures :=
  { candidate_id := 1, avg_competency_score := 0, days_since_enrollment := 0,
    competency_vector := [], avg_task_score := 0, course_completion_rate := 0,
    task_completion_rate := 0, consistency_score := 0, improvement_trend := 0,
    learning_velocity := 0, engagement_score := 0, recent_activity := 0 }

def cFeat2 : CandidateFeatures := { cFeatBase with candidate_id := 2 }

def cFeat3 : CandidateFeatures := { cFeatBase with candidate_id := 3 }

/-- A candidate whose metrics put it in the `senior` bucket. -/
def seniorFeatures : CandidateFeatures :=
  { cFeatBase with
    candidate_id := 7
    avg_competency_score := 90
    days_since_enrollment := 400 }

def jdExample : JobRequirements :=
  { required_skills := ["python"], required_experience := "mid_level" }

def jdSkip : JobRequirements :=
  { required_skills := ["sql"], required_experience := "senior" }

/-! ### Claim theorems: the candidate match engine and the blender -/

/-- Claim C2 counterexample: a senior-bucket candidate (bucket 4) against
required level `mid_level` (bucket 3) sits at absolute bucket distance 1,
where the claimed step function yields 75, yet the code returns 100. -/
theorem experience_absolute_distance_counterexample :
    (calculateExperienceMatch seniorFeatures "mid_level").score = 100 ∧
    (List.lookup (estimateCandidateLevel seniorFeatures) expMapping).getD 2 = 4 ∧
    (List.lookup "mid_level" expMapping).getD 3 = 3 ∧
    claimedAbsDistanceStep (Int.natAbs (4 - 3)) = 75 ∧
    (100 : ℤ) ≠ 75 := by
  refine ⟨by decide, by decide, by decide, by decide, by decide⟩

/-- Claim C2 (amended): the experience-match score is a step function of
the deficit `required_bucket - candidate_bucket` in the ordering
entry→junior→mid→senior→executive — deficits ≤ 0 (candidate at or above
the required level) map to 100, 1 to 75, 2 to 50, and ≥ 3 to 25; an
unrecognized required level defaults to the `mid_level` bucket 3. -/
theorem experience_deficit_step (f : CandidateFeatures) (req : String) :
    (calculateExperienceMatch f req).score =
      deficitStep ((List.lookup req expMapping).getD 3 -
        (List.lookup (estimateCandidateLevel f) expMapping).getD 2) ∧
    (List.lookup "mid_level" expMapping).getD 3 = 3 := by
  constructor
  · have hd : ∀ d : ℤ, deficitStep d =
        if d ≤ 0 then 100 else if d = 1 then 75 else if d = 2 then 50 else 25 :=
      fun d => rfl
    simp only [calculateExperienceMatch]
    set c := (List.lookup (estimateCandidateLevel f) expMapping).getD 2 with hc
    set r := (List.lookup req expMapping).getD 3 with hr
    by_cases h1 : c ≥ r
    · rw [if_pos h1, hd, if_pos (by omega : r - c ≤ 0)]
    · rw [if_neg h1]
      by_cases h2 : c = r - 1
      · rw [if_pos h2, hd, if_neg (by omega : ¬(r - c ≤ 0)), if_pos (by omega : r - c = 1)]
      · rw [if_neg h2]
        by_cases h3 : c = r - 2
        · rw [if_pos h3, hd, if_neg (by omega : ¬(r - c ≤ 0)),
            if_neg (by omega : ¬(r - c = 1)), if_pos (by omega : r - c = 2)]
        · rw [if_neg h3, hd, if_neg (by omega : ¬(r - c ≤ 0)),
            if_neg (by omega : ¬(r - c = 1)), if_neg (by omega : ¬(r - c = 2))]
  · decide

/-- Claim C3 counterexample: with two processable candidates,
`top_k = -1` (which is ≤ 0) returns one recommendation — Python's
negative slice keeps all but the last entry — not the empty list. -/
theorem negative_topk_counterexample :
    ((-1 : ℤ) ≤ 0) ∧
    (recommendCandidates jdExample [some cFeatBase, some cFeat2] (-1)).length = 1 ∧
    recommendCandidates jdExample [some cFeatBase, some cFeat2] (-1) ≠ [] := by
  have hlen : (rankedRecommendations jdExample [some cFeatBase, some cFeat2]).length = 2 := by
    simp [rankedRecommendations, length_sortRecsDesc, processCandidate]
  have hlen1 :
      (recommendCandidates jdExample [some cFeatBase, some cFeat2] (-1)).length = 1 := by
    rw [recommendCandidates, pySliceTo, if_neg (by norm_num)]
    rw [List.length_take, hlen]
    norm_num
  refine ⟨by norm_num, hlen1, fun h => ?_⟩
  rw [h] at hlen1
  simp at hlen1

/-- Claim C3 (amended): the ranked output is `recommendations[:top_k]`
with Python slice semantics — a non-negative `top_k` truncates to at most
`top_k` entries and `top_k = 0` yields `[]`, while a negative `top_k`
drops the last `|top_k|` ranked entries; no value of `top_k` raises. -/
theorem topk_truncation (jd : JobRequirements)
    (cands : List (Option CandidateFeatures)) (k : ℤ) :
    (0 ≤ k → (recommendCandidates jd cands k).length ≤ k.toNat) ∧
    recommendCandidates jd cands 0 = [] ∧
    (k < 0 → (recommendCandidates jd cands k).length =
      (((rankedRecommendations jd cands).length : ℤ) + k).toNat) := by
  refine ⟨fun hk => ?_, ?_, fun hk => ?_⟩
  · rw [recommendCandidates, pySliceTo, if_pos hk, List.length_take]
    exact Nat.min_le_left _ _
  · rw [recommendCandidates, pySliceTo, if_pos le_rfl]
    simp
  · rw [recommendCandidates, pySliceTo, if_neg (by omega), List.length_take]
    omega

/-- Witness for the amended C3 theorem at concrete inputs. -/
theorem topk_truncation_witness :
    (recommendCandidates jdExample [some cFeatBase, some cFeat2] 3).length ≤ (3 : ℤ).toNat ∧
    recommendCandidates jdExample [some cFeatBase, some cFeat2] 0 = [] ∧
    (recommendCandidates jdExample [some cFeatBase, some cFeat2] (-2)).length =
      (((rankedRecommendations jdExample [some cFeatBase, some cFeat2]).length : ℤ) +
        (-2)).toNat :=
  ⟨(topk_truncation jdExample [some cFeatBase, some cFeat2] 3).1 (by norm_num),
   (topk_truncation jdExample [some cFeatBase, some cFeat2] 0).2.1,
   (topk_truncation jdExample [some cFeatBase, some cFeat2] (-2)).2.2 (by norm_num)⟩

/-- Claim C7: the blended final score equals the spec formula
`clamp(ml*0.7 + rule*0.3, 0, 1) * 100` rounded to two decimals, and in
particular `blend(1,1) = 100`, `blend(0,0) = 0`, `blend(0.5,0.5) = 50`. -/
theorem blend_formula_matches_spec :
    (∀ ml rule : ℚ, blendScore ml rule = pyRound2 (specBlendFormula ml rule)) ∧
    blendScore 1 1 = 100 ∧ blendScore 0 0 = 0 ∧ blendScore 0.5 0.5 = 50 := by
  have key : ∀ x : ℚ, max 0 (min 100 (x * 100)) = min 1 (max 0 x) * 100 := by
    intro x
    simp only [max_def, min_def]
    split_ifs <;> linarith
  refine ⟨fun ml rule => ?_, ?_, ?_, ?_⟩
  · show pyRound2 (max 0 (min 100 ((ml * 0.7 + rule * 0.3) * 100))) =
      pyRound2 (min 1 (max 0 (ml * 0.7 + rule * 0.3)) * 100)
    rw [key]
  · norm_num [blendScore, pyRound2, roundHalfEven, qFloor, Int.fdiv, min_def, max_def]
  · norm_num [blendScore, pyRound2, roundHalfEven, qFloor, Int.fdiv, min_def, max_def]
  · norm_num [blendScore, pyRound2, roundHalfEven, qFloor, Int.fdiv, min_def, max_def]

/-- Claim C8: the skill-match score is the spec formula
`(match_rate*0.6 + avg_matched_score/100*0.4) * 100` (reported at two
decimals) for non-empty required-skill lists, is exactly 0 for the empty
required-skill list, and the vector `{"python": 90}` against
`["python", "sql"]` scores 66. -/
theorem skill_match_formula :
    (∀ (vec : List (String × ℚ)) (req : List String),
        (calculateSkillMatchScore vec req).score =
          if req = [] then 0 else pyRound2 (specSkillMatchFormula vec req)) ∧
    (calculateSkillMatchScore [("python", 90)] ["python", "sql"]).score = 66 := by
  have h1 : ∀ (vec : List (String × ℚ)) (req : List String),
      (calculateSkillMatchScore vec req).score =
        if req = [] then 0 else pyRound2 (specSkillMatchFormula vec req) := by
    intro vec req
    by_cases h : req = []
    · simp [calculateSkillMatchScore, h]
    · rw [if_neg h]
      simp only [calculateSkillMatchScore, if_neg h, specSkillMatchFormula]
      rw [← (skillLoop_spec vec req).1, (skillLoop_spec vec req).2]
  refine ⟨h1, ?_⟩
  rw [h1]
  rw [if_neg (by decide : ¬(["python", "sql"] = ([] : List String)))]
  have hm : (["python", "sql"].filterMap
      (fun s => List.lookup (normSkillStr s) [("python", (90 : ℚ))])) = [90] := by decide
  simp only [specSkillMatchFormula, hm]
  norm_num [pyRound2, roundHalfEven, qFloor, Int.fdiv]

/-- Claim C10: a candidate whose per-candidate processing raises is
silently skipped: ranking keeps exactly the surviving candidates (the
recommendation record carries no error marker), so a pool of two with one
failing candidate and `top_k = 2` yields a single entry — strictly fewer
than `min top_k (pool size)`. -/
theorem failed_candidate_silently_skipped :
    (∀ (jd : JobRequirements) (cands : List (Option CandidateFeatures)),
        (rankedRecommendations jd cands).length =
          (cands.filterMap (processCandidate jd)).length) ∧
    (∀ jd : JobRequirements, processCandidate jd none = none) ∧
    (∀ (jd : JobRequirements) (f : CandidateFeatures),
        (processCandidate jd (some f)).isSome = true) ∧
    (recommendCandidates jdSkip [some cFeat3, none] 2).length = 1 ∧
    1 < min 2 ([some cFeat3, none] : List (Option CandidateFeatures)).length := by
  have hrank : ∀ (jd : JobRequirements) (cands : List (Option CandidateFeatures)),
      (rankedRecommendations jd cands).length =
        (cands.filterMap (processCandidate jd)).length := by
    intro jd cands
    exact length_sortRecsDesc _
  have hlen : (rankedRecommendations jdSkip [some cFeat3, none]).length = 1 := by
    rw [hrank]
    simp [processCandidate]
  refine ⟨hrank, fun jd => rfl, fun jd f => rfl, ?_, by simp⟩
  rw [recommendCandidates, pySliceTo, if_pos (by norm_num), List.length_take, hlen]
  decide

/-- Embedding validation against the end-to-end example of §8 of the
spec: a pricing-page visit, a Python page viewed for 240s and a form
submission score 10 + 15 + 20 = 45, quality `medium`. -/
theorem scoreLead_end_to_end_example :
    (scoreLead
      [{ type := "page_visit", content := "", duration := 0, page_url := "/pricing" },
       { type := "page_visit", content := "", duration := 240,
         page_url := "/courses/python" },
       { type := "form_submission", content := "", duration := 0,
         page_url := "" }]).lead_score = 45 ∧
    (scoreLead
      [{ type := "page_visit", content := "", duration := 0, page_url := "/pricing" },
       { type := "page_visit", content := "", duration := 240,
         page_url := "/courses/python" },
       { type := "form_submission", content := "", duration := 0,
         page_url := "" }]).quality = "medium" := by
  constructor <;> decide

end Rocket
